import Mathlib

/-!
Shallow embedding of `bin/buck_repo.py` (the daemon lifecycle supervisor and
version-consistency gate of the buck bootstrap script), together with proofs
of the spec's claims about it.

Conventions of the embedding:
* Persisted per-project runtime state (`ProjectRuntimeState`) mirrors the pid /
  port / version-uid / run-count / autobuild-pid files managed through the
  external `buck_project` object.  Its accessors (`get_buckd_pid`,
  `save_buckd_pid`, `update_buckd_run_count`, `clean_up_buckd`, ...) are not
  under `src/`; they are modelled from the spec as plain field reads/writes.
* OS effects (process liveness probes, socket connects, signal delivery
  outcomes, the spawned daemon's pid and output stream, child exit codes) are
  supplied by an explicit environment record `Env`; each Python statement with
  an observable effect is mirrored by a state/trace transformation.
* Python string operations are modelled on ASCII content: `str.isdigit` is
  "nonempty and all decimal digits", `str.strip` drops whitespace at both
  ends.
-/

/-- Python truthiness of an optional string (`None` and `""` are falsy). -/
def pyTruthy : Option String → Bool
  | none => false
  | some s => !(s == "")

/-- Python `str.isdigit` on ASCII content: nonempty and all decimal digits. -/
def pyIsDigit (s : String) : Bool :=
  decide (s ≠ "") && s.data.all Char.isDigit

/-- Drop leading whitespace characters from a character list. -/
def stripLeading : List Char → List Char
  | [] => []
  | c :: rest => if c.isWhitespace then stripLeading rest else c :: rest

/-- Python `str.strip` (ASCII whitespace): drop whitespace from both ends. -/
def pyStrip (s : String) : String :=
  String.mk (stripLeading ((stripLeading s.data.reverse).reverse))

/-- Python `int(s)` on a digit-only string. -/
def strToNat (s : String) : Nat := (s.toNat?).getD 0

/-- `MAX_BUCKD_RUN_COUNT` from `buck_repo.py`: the daemon-reuse ceiling. -/
def MAX_BUCKD_RUN_COUNT : Nat := 64

/-- POSIX signal number of SIGTERM (`signal.SIGTERM`). -/
def SIGTERM : Nat := 15

/-- POSIX signal number of SIGKILL (`signal.SIGKILL`). -/
def SIGKILL : Nat := 9

/-- POSIX errno ESRCH ("no such process", `errno.ESRCH`). -/
def ESRCH : Nat := 3

/-- Modelled from the spec: the persisted, mutable per-project runtime state
(`ProjectRuntimeState`), stored by the external `buck_project` module (not
under `src/`) as one file per field: daemon pid, daemon port, daemon version
uid, daemon run count and autobuild pid.  Pid/port/version files hold raw
strings (hence `Option String`); the run count is read back as an integer. -/
structure ProjectRuntimeState where
  buckd_pid : Option String
  buckd_port : Option String
  buckd_version : Option String
  buckd_run_count : Nat
  autobuild_pid : Option String
deriving DecidableEq, Repr

/-- Modelled from the spec: `buck_project.clean_up_buckd` (not under `src/`)
clears the persisted daemon state fields (pid, port, version uid, run count);
the autobuild pid is a separate concern and is left alone. -/
def clean_up_buckd (st : ProjectRuntimeState) : ProjectRuntimeState :=
  { st with buckd_pid := none, buckd_port := none, buckd_version := none,
            buckd_run_count := 0 }

/-- The OS-level environment a single invocation runs against.
`pidAlive n` models "`os.kill(n, 0)` raises no `OSError`";
`portOpen p` models "`socket.connect_ex(('127.0.0.1', p)) == 0`";
`killOutcome pid sig i` is the outcome of the `i`-th signal sent to `pid`
during a kill (`none` = delivered, `some e` = `OSError` with errno `e`);
`newPid` is the pid of the daemon process spawned by `Popen`;
`stream i` is the `i`-th `readline()` result from the daemon's pty;
`clientExit p` / `directExit` are the exit codes of the nailgun client run
against port `p` and of the direct one-shot `java` invocation. -/
structure Env where
  pidAlive : Nat → Bool
  portOpen : Nat → Bool
  killOutcome : Nat → Nat → Nat → Option Nat
  newPid : Nat
  stream : Nat → String
  clientExit : String → Int
  directExit : Int

/-- A Python runtime error relevant to this script: `TypeError` (raised by
`os.kill` when handed a non-integer pid) or `OSError` with an errno. -/
inductive PyError where
  | typeError
  | osError (e : Nat)
deriving DecidableEq, Repr

/-- A Python value passed to `os.kill`: the script passes either a real `int`
or (buggily, in `kill_autobuild`) the raw pid string. -/
inductive PyVal where
  | int (n : Nat)
  | str (s : String)
deriving DecidableEq, Repr

/-- `os.kill(v, sig)`: a non-integer first argument raises `TypeError` before
any signalling happens; an integer pid signals the process when it exists and
raises `OSError(ESRCH)` when it does not. -/
def os_kill (env : Env) (v : PyVal) : Except PyError Unit :=
  match v with
  | PyVal.str _ => Except.error PyError.typeError
  | PyVal.int pid =>
    if env.pidAlive pid then Except.ok () else Except.error (PyError.osError ESRCH)

/-- `BuckRepo.kill_autobuild` (`buck_repo.py` lines 251-258): read the
persisted autobuild pid; when it is a truthy digit string, call
`os.kill(autobuild_pid, SIGTERM)` inside `try ... except OSError: pass`.
Note the source passes the pid *string* to `os.kill` without `int()`;
only `OSError` is caught, so a `TypeError` propagates. -/
def kill_autobuild (env : Env) (st : ProjectRuntimeState) : Except PyError Unit :=
  match st.autobuild_pid with
  | none => Except.ok ()
  | some pid =>
    if pid = "" then Except.ok ()
    else if pyIsDigit pid then
      match os_kill env (PyVal.str pid) with
      | Except.ok _ => Except.ok ()
      | Except.error (PyError.osError _) => Except.ok ()
      | Except.error PyError.typeError => Except.error PyError.typeError
    else Except.ok ()

/-- `BUCKD_LOG_FILE_PATTERN` tail matcher: does `cs` read `" port " ++ ds ++
"."` with `ds` a nonempty run of decimal digits?  Returns the captured `ds`. -/
def portCapture (cs : List Char) : Option (List Char) :=
  if (" port ".data).isPrefixOf cs then
    let t := cs.drop 6
    if t.getLast? = some '.' && decide (t.dropLast ≠ []) &&
        (t.dropLast).all Char.isDigit then
      some t.dropLast
    else none
  else none

/-- Scan for the regex suffix `" port (\d+)\.$"` inside `cs`, preferring the
latest starting position (the greedy semantics of the `.*` that precedes it in
`BUCKD_LOG_FILE_PATTERN`). -/
def scanPort : List Char → Option (List Char)
  | [] => none
  | c :: rest =>
    match scanPort rest with
    | some ds => some ds
    | none => portCapture (c :: rest)

/-- `re.match` of `BUCKD_LOG_FILE_PATTERN` (`'^NGServer.* port (\d+)\.$'`,
`buck_repo.py` line 97) against a line, returning the captured port digits. -/
def matchBuckdLine (line : String) : Option String :=
  if ("NGServer".data).isPrefixOf line.data then
    (scanPort (line.data.drop 8)).map String.mk
  else none

/-- The bounded read loop of `launch_buckd` (`buck_repo.py` lines 234-245),
started at read index `i` with `fuel` attempts remaining: strip each line,
try the server-started pattern, stop at the first match; `none` when the
attempt budget is exhausted. -/
def awaitPortFrom (stream : Nat → String) : Nat → Nat → Option String
  | 0, _ => none
  | fuel + 1, i =>
    match matchBuckdLine (pyStrip (stream i)) with
    | some port => some port
    | none => awaitPortFrom stream fuel (i + 1)

/-- Port discovery as performed by `launch_buckd`: `for i in range(100)` over
`stdout.readline().strip()` with a 0.1 s sleep after each non-matching line
(the sleep has no effect on the computed value and is not modelled). -/
def awaitPort (stream : Nat → String) : Option String :=
  awaitPortFrom stream 100 0

/-- `BuckRepo.launch_buckd` from the spawn onward (`buck_repo.py` lines
225-249).  The preceding steps (`_build`, `_setup_watchman_watch`,
`create_buckd_tmp_dir`, building the java command) modify no persisted daemon
field and abort before any persistence when they fail.  After `Popen`, the
source immediately persists the child's pid (`save_buckd_pid`, line 231),
then runs port discovery; on a match it persists the port, the version uid
and a run count of 0; on exhaustion it prints a failure message and returns
with only the pid persisted. -/
def launch_buckd (env : Env) (uid : String) (st : ProjectRuntimeState) :
    ProjectRuntimeState :=
  let st1 := { st with buckd_pid := some (toString env.newPid) }
  match awaitPort env.stream with
  | none => st1
  | some port =>
    { st1 with buckd_port := some port, buckd_version := some uid,
               buckd_run_count := 0 }

/-- `BuckRepo._is_buckd_running` (`buck_repo.py` lines 306-325): false when
the persisted pid or port is missing or not a digit string; otherwise true
iff `os.kill(pid, 0)` raises no `OSError` and a raw socket connect to the
port succeeds. -/
def is_buckd_running (env : Env) (st : ProjectRuntimeState) : Bool :=
  match st.buckd_pid, st.buckd_port with
  | some pid, some port =>
    if pyIsDigit pid && pyIsDigit port then
      if env.pidAlive (strToNat pid) then env.portOpen (strToNat port)
      else false
    else false
  | _, _ => false

/-- Run a sequence of signal attempts against `pid`, the attempt counter
starting at `idx`: stop at the first attempt that raises, swallowing
`OSError(ESRCH)` (process already gone, treated as success) and turning any
other errno into a fatal error.  Returns the list of signals attempted
together with the Python-level result of the `try` block. -/
def runAttempts (env : Env) (pid : Nat) :
    List Nat → Nat → List Nat × Except PyError Unit
  | [], _ => ([], Except.ok ())
  | sig :: rest, idx =>
    match env.killOutcome pid sig idx with
    | none =>
      let r := runAttempts env pid rest (idx + 1)
      (sig :: r.1, r.2)
    | some e =>
      ([sig], if e = ESRCH then Except.ok () else Except.error (PyError.osError e))

/-- The signal schedule of `_kill_buckd_process_and_wait`: one initial
SIGTERM, 100 further SIGTERMs from the polling loop (the loop has no `break`,
so its `else` clause always runs), then the escalation SIGKILL. -/
def attemptSignals : List Nat := List.replicate 101 SIGTERM ++ [SIGKILL]

/-- The signal the `i`-th attempt of `_kill_buckd_process_and_wait` sends:
SIGTERM for attempts 0-100, SIGKILL for attempt 101. -/
def sigAt (i : Nat) : Nat := if i < 101 then SIGTERM else SIGKILL

/-- `BuckRepo._kill_buckd_process_and_wait` (`buck_repo.py` lines 270-287):
send SIGTERM, poll-resend it 100 times at 0.1 s intervals, then force-kill
with SIGKILL; the whole sequence sits in a `try` whose handler swallows
`OSError(ESRCH)` and re-raises any other errno. -/
def kill_buckd_process_and_wait (env : Env) (pid : Nat) :
    List Nat × Except PyError Unit :=
  runAttempts env pid attemptSignals 0

/-- Result of a `kill_buckd` call: the signals delivered (as `(pid, sig)`
pairs would be redundant — the pid is fixed, so just the signal numbers in
order), whether the corrupt-pid warning was printed, and either the state
after `clean_up_buckd` or the propagated error. -/
structure KillResult where
  signals : List Nat
  warnedCorrupt : Bool
  result : Except PyError ProjectRuntimeState

/-- `BuckRepo.kill_buckd` (`buck_repo.py` lines 260-268): with a truthy
recorded pid that is not a digit string, print a warning; with a digit
string, run `_kill_buckd_process_and_wait(int(pid))`; in every non-raising
path finish with `clean_up_buckd`. -/
def kill_buckd (env : Env) (st : ProjectRuntimeState) : KillResult :=
  match st.buckd_pid with
  | none => ⟨[], false, Except.ok (clean_up_buckd st)⟩
  | some pid =>
    if pid = "" then ⟨[], false, Except.ok (clean_up_buckd st)⟩
    else if pyIsDigit pid = false then
      ⟨[], true, Except.ok (clean_up_buckd st)⟩
    else
      match kill_buckd_process_and_wait env (strToNat pid) with
      | (tr, Except.ok _) => ⟨tr, false, Except.ok (clean_up_buckd st)⟩
      | (tr, Except.error e) => ⟨tr, false, Except.error e⟩

/-- The daemon-management decision taken by the `use_buckd` branch of
`launch_buck`. -/
inductive Decision where
  | REUSE
  | RESTART_FRESH
  | RUN_DIRECT
deriving DecidableEq, Repr

/-- The daemon-reuse logic of `BuckRepo.launch_buck` (`buck_repo.py` lines
132-147).  With daemon use enabled and watchman present: read the persisted
run count and version; when the count equals `MAX_BUCKD_RUN_COUNT` or the
version differs from the fresh uid, kill the daemon and relaunch
(RESTART_FRESH); otherwise relaunch when `_is_buckd_running()` is false
(RESTART_FRESH, no kill); otherwise persist the incremented run count and
keep the daemon (REUSE).  Without daemon use or watchman nothing happens
here (RUN_DIRECT).  The second component is the resulting persisted state,
or the error propagated out of `kill_buckd`. -/
def launch_buck_daemon_decision (useBuckd hasWatchman : Bool) (env : Env)
    (st : ProjectRuntimeState) (uid : String) :
    Decision × Except PyError ProjectRuntimeState :=
  if useBuckd && hasWatchman then
    if st.buckd_run_count = MAX_BUCKD_RUN_COUNT ∨ st.buckd_version ≠ some uid then
      match (kill_buckd env st).result with
      | Except.error e => (Decision.RESTART_FRESH, Except.error e)
      | Except.ok st1 => (Decision.RESTART_FRESH, Except.ok (launch_buckd env uid st1))
    else if is_buckd_running env st = false then
      (Decision.RESTART_FRESH, Except.ok (launch_buckd env uid st))
    else
      (Decision.REUSE,
       Except.ok { st with buckd_run_count := st.buckd_run_count + 1 })
  else (Decision.RUN_DIRECT, Except.ok st)

/-- How the tail of `launch_buck` runs the user's task: through the nailgun
client against a daemon port, or through the direct one-shot `java` child;
`fatal` records an exception propagating out of the corrupt-port
`kill_buckd`. -/
inductive RunOutcome where
  | client (port : String) (exitCode : Int)
  | direct (exitCode : Int)
  | fatal (e : PyError)
deriving DecidableEq, Repr

/-- The dispatch tail of `BuckRepo.launch_buck` (`buck_repo.py` lines
152-180): when `_is_buckd_running()` holds and the client executable
`build/ng` exists, read the persisted port; a falsy or non-digit port is
corrupt — kill the daemon and fall through; otherwise run the client against
that port and return its exit code.  In every other case run the direct
`java` invocation and return its exit code. -/
def dispatchTail (env : Env) (clientFileExists : Bool)
    (st : ProjectRuntimeState) : RunOutcome :=
  if is_buckd_running env st && clientFileExists then
    let portStr := (st.buckd_port).getD ""
    if portStr = "" ∨ pyIsDigit portStr = false then
      match (kill_buckd env st).result with
      | Except.error e => RunOutcome.fatal e
      | Except.ok _ => RunOutcome.direct env.directExit
    else RunOutcome.client portStr (env.clientExit portStr)
  else RunOutcome.direct env.directExit

/-- Externally visible steps of `_checkout_and_clean`, in execution order. -/
inductive GateAction where
  | fetch (branch : Option String)
  | announce
  | checkout (rev : String)
  | removeMarker
  | antClean
  | antFull
  | restart
deriving DecidableEq, Repr

/-- How `_checkout_and_clean` ends: return normally (revision already
matches), raise one of its fatal errors, or — after a successful checkout and
clean — re-execute the program and terminate with the child's exit code
(`sys.exit`) or by re-raising the child's termination signal on itself
(`os.kill(os.getpid(), -code)`). -/
inductive GateOutcome where
  | normalReturn
  | fetchFailed
  | checkoutFailed
  | antMissing
  | cleanBuildFailed
  | exited (code : Int)
  | signalled (sig : Int)
deriving DecidableEq, Repr

/-- Environment of the repo-sync gate: outcomes of the git/ant/child
subprocesses it shells out to. -/
structure GateEnv where
  revisionExists : String → Bool
  fetchOk : Bool
  currentRevision : String
  checkoutOk : Bool
  markerExists : Bool
  antOnPath : Bool
  antCleanExit : Int
  childExit : Int

/-- `BuckRepo._restart_buck` (`buck_repo.py` lines 447-454): run `bin/buck`
with the original arguments; a negative exit code means the child died of a
signal, which is re-raised on the current process; otherwise `sys.exit` with
the child's code.  Either way the function never returns. -/
def restart_buck (childExit : Int) : GateOutcome :=
  if childExit < 0 then GateOutcome.signalled (-childExit)
  else GateOutcome.exited childExit

/-- `BuckRepo._checkout_and_clean` (`buck_repo.py` lines 327-363): fetch when
the pinned revision is not locally reachable (fatal on failure); return
normally when the current revision already equals the pin; otherwise announce
the update, `git checkout` the pin (a `check_call`, fatal on failure), remove
the successful-build marker when present, require `ant` on the path, run
`ant clean` (fatal on nonzero exit), and hand off to `_restart_buck`. -/
def checkout_and_clean (env : GateEnv) (revision : String)
    (branch : Option String) : List GateAction × GateOutcome :=
  let fetchTrace :=
    if env.revisionExists revision then [] else [GateAction.fetch branch]
  if env.revisionExists revision = false ∧ env.fetchOk = false then
    (fetchTrace, GateOutcome.fetchFailed)
  else if env.currentRevision = revision then
    (fetchTrace, GateOutcome.normalReturn)
  else if env.checkoutOk = false then
    (fetchTrace ++ [GateAction.announce, GateAction.checkout revision],
     GateOutcome.checkoutFailed)
  else
    let tr := fetchTrace ++ [GateAction.announce, GateAction.checkout revision] ++
      (if env.markerExists then [GateAction.removeMarker] else [])
    if env.antOnPath = false then (tr, GateOutcome.antMissing)
    else if env.antCleanExit ≠ 0 then
      (tr ++ [GateAction.antClean], GateOutcome.cleanBuildFailed)
    else
      (tr ++ [GateAction.antClean, GateAction.restart], restart_buck env.childExit)

/-- Repository/environment inputs of `_get_buck_version_uid` and its helpers:
the `.git` probe, the `BUCK_REPOSITORY_DIRTY` override, raw `git status
--porcelain` and `git ls-files -m` outputs, the current revision (first
stripped line of `git rev-parse HEAD --`), the `.nobuckcheck` flag, whether a
pinned buck version is configured, the hash `_compute_local_hash` would
produce, the `BUCK_CLEAN_REPO_IF_DIRTY` variable, interactivity of stdout and
the (lower-cased) interactive answer. -/
structure RepoEnv where
  isGit : Bool
  dirtyOverride : Option String
  gitStatusOutput : String
  gitLsFilesM : String
  gitRevision : String
  hasNoBuckCheck : Bool
  buckVersionPresent : Bool
  localHash : String
  cleanRepoIfDirty : Option String
  stdoutIsAtty : Bool
  userChoice : String

/-- `BuckRepo._is_dirty` (`buck_repo.py` lines 368-378): a truthy
`BUCK_REPOSITORY_DIRTY` override decides dirtiness by comparing against
`"1"`; otherwise a non-git tree is never dirty and a git tree is dirty iff
`git status --porcelain` prints anything. -/
def is_dirty (e : RepoEnv) : Bool :=
  if pyTruthy e.dirtyOverride then decide (e.dirtyOverride = some "1")
  else if e.isGit = false then false
  else decide (pyStrip e.gitStatusOutput ≠ "")

/-- `BuckRepo._has_local_changes` (`buck_repo.py` lines 380-387). -/
def has_local_changes (e : RepoEnv) : Bool :=
  if e.isGit = false then false
  else decide (pyStrip e.gitLsFilesM ≠ "")

/-- `BuckRepo._get_git_revision` (`buck_repo.py` lines 389-396). -/
def get_git_revision (e : RepoEnv) : String :=
  if e.isGit = false then "N/A" else e.gitRevision

/-- Result of `_get_buck_version_uid`: the uid string, or divergence through
the interactive-clean `_restart_buck` path. -/
inductive UidOutcome where
  | value (s : String)
  | restarted (g : GateOutcome)
deriving DecidableEq, Repr

/-- `BuckRepo._get_buck_version_uid` (`buck_repo.py` lines 502-539): `"N/A"`
outside git; the current revision when `_is_dirty()` is false; otherwise the
local content hash, with warnings when tracked files are modified, and — when
only untracked noise is present, cleaning is not opted out and the session is
interactive — an offer to `git clean` and restart the whole program. -/
def get_buck_version_uid (e : RepoEnv) (childExit : Int) : UidOutcome :=
  if e.isGit = false then UidOutcome.value "N/A"
  else if is_dirty e = false then UidOutcome.value (get_git_revision e)
  else if e.hasNoBuckCheck ∨ e.buckVersionPresent = false then
    UidOutcome.value e.localHash
  else if has_local_changes e then UidOutcome.value e.localHash
  else if e.cleanRepoIfDirty ≠ some "NO" then
    if e.stdoutIsAtty then
      if e.userChoice = "y" then UidOutcome.restarted (restart_buck childExit)
      else UidOutcome.value e.localHash
    else UidOutcome.value e.localHash
  else UidOutcome.value e.localHash

/-- Concrete OS environment whose daemon emits no output at all. -/
def envNoOutput : Env :=
  { pidAlive := fun _ => false, portOpen := fun _ => false,
    killOutcome := fun _ _ _ => none, newPid := 42,
    stream := fun _ => "", clientExit := fun _ => 0, directExit := 7 }

/-- Concrete OS environment with a live, connectable daemon whose signals all
deliver and whose client exits 0. -/
def envAllUp : Env :=
  { pidAlive := fun _ => true, portOpen := fun _ => true,
    killOutcome := fun _ _ _ => none, newPid := 42,
    stream := fun _ => "", clientExit := fun _ => 0, directExit := 7 }

/-- Concrete OS environment where the recorded pid is a live process but the
recorded port refuses connections. -/
def envDeadPort : Env :=
  { pidAlive := fun _ => true, portOpen := fun _ => false,
    killOutcome := fun _ _ _ => none, newPid := 42,
    stream := fun _ => "", clientExit := fun _ => 0, directExit := 7 }

/-- Empty persisted runtime state: first use of a project. -/
def emptyState : ProjectRuntimeState :=
  { buckd_pid := none, buckd_port := none, buckd_version := none,
    buckd_run_count := 0, autobuild_pid := none }

/-- Persisted state of a healthy daemon: pid 1, port 80, version `"v1"`,
three prior reuses. -/
def stWithDaemon : ProjectRuntimeState :=
  { buckd_pid := some "1", buckd_port := some "80", buckd_version := some "v1",
    buckd_run_count := 3, autobuild_pid := none }

/-- Persisted state with a corrupt (non-numeric) daemon pid file. -/
def stCorruptPid : ProjectRuntimeState :=
  { buckd_pid := some "abc", buckd_port := some "80",
    buckd_version := some "v1", buckd_run_count := 2, autobuild_pid := none }

/-- Persisted state with a recorded numeric autobuild pid. -/
def stAutobuild : ProjectRuntimeState :=
  { buckd_pid := none, buckd_port := none, buckd_version := none,
    buckd_run_count := 0, autobuild_pid := some "123" }

/-- Daemon output stream that talks junk before announcing port 77 on its
fourth line (with surrounding whitespace exercising the strip). -/
def streamLate : Nat → String :=
  fun i => if i = 3 then "  NGServer x port 77.  " else "junk"

/-- Gate environment where the pin is reachable, checkout and clean build
succeed, the marker exists and the re-executed child exits 0, while the
current revision is `"r1"`. -/
def gateEnvHappy : GateEnv :=
  { revisionExists := fun _ => true, fetchOk := true, currentRevision := "r1",
    checkoutOk := true, markerExists := true, antOnPath := true,
    antCleanExit := 0, childExit := 0 }

/-- Clean git checkout at revision `"abc123"` with the dirty override unset
and a distinct local hash (which the clean path must not return). -/
def repoEnvClean : RepoEnv :=
  { isGit := true, dirtyOverride := none, gitStatusOutput := "",
    gitLsFilesM := "", gitRevision := "abc123", hasNoBuckCheck := false,
    buckVersionPresent := true, localHash := "ffff",
    cleanRepoIfDirty := none, stdoutIsAtty := false, userChoice := "" }

/-- The same clean checkout but with `BUCK_REPOSITORY_DIRTY=1` exported. -/
def repoEnvOverride : RepoEnv :=
  { isGit := true, dirtyOverride := some "1", gitStatusOutput := "",
    gitLsFilesM := "", gitRevision := "abc123", hasNoBuckCheck := true,
    buckVersionPresent := true, localHash := "ffff",
    cleanRepoIfDirty := none, stdoutIsAtty := false, userChoice := "" }

/-- The read loop of `launch_buckd` only ever looks at the first `fuel` lines
starting at read index `i`. -/
theorem awaitPortFrom_congr (s t : Nat → String) :
    ∀ fuel i, (∀ j, j < fuel → s (i + j) = t (i + j)) →
      awaitPortFrom s fuel i = awaitPortFrom t fuel i := by
  intro fuel
  induction fuel with
  | zero => intro i _; rfl
  | succ n ih =>
    intro i h
    have h0 : s i = t i := by simpa using h 0 (Nat.succ_pos n)
    have hrest : ∀ j, j < n → s ((i + 1) + j) = t ((i + 1) + j) := by
      intro j hj
      have hx := h (j + 1) (Nat.succ_lt_succ hj)
      have e : i + (j + 1) = (i + 1) + j := by omega
      rwa [e] at hx
    simp only [awaitPortFrom, h0]
    cases hm : matchBuckdLine (pyStrip (t i)) with
    | some p => rfl
    | none => exact ih (i + 1) hrest

/-- When no line within the budget matches, the read loop returns `none`. -/
theorem awaitPortFrom_none (s : Nat → String) :
    ∀ fuel i, (∀ j, j < fuel → matchBuckdLine (pyStrip (s (i + j))) = none) →
      awaitPortFrom s fuel i = none := by
  intro fuel
  induction fuel with
  | zero => intro i _; rfl
  | succ n ih =>
    intro i h
    have h0 : matchBuckdLine (pyStrip (s i)) = none := by
      simpa using h 0 (Nat.succ_pos n)
    simp only [awaitPortFrom, h0]
    exact ih (i + 1) (fun j hj => by
      have hx := h (j + 1) (Nat.succ_lt_succ hj)
      have e : i + (j + 1) = (i + 1) + j := by omega
      rwa [e] at hx)

/-- The read loop returns the capture of the first matching line. -/
theorem awaitPortFrom_first (s : Nat → String) :
    ∀ j fuel i p, j < fuel →
      (∀ k, k < j → matchBuckdLine (pyStrip (s (i + k))) = none) →
      matchBuckdLine (pyStrip (s (i + j))) = some p →
      awaitPortFrom s fuel i = some p := by
  intro j
  induction j with
  | zero =>
    intro fuel i p hf _ hm
    cases fuel with
    | zero => omega
    | succ f =>
      rw [Nat.add_zero] at hm
      simp only [awaitPortFrom, hm]
  | succ n ih =>
    intro fuel i p hf hk hm
    cases fuel with
    | zero => omega
    | succ f =>
      have h0 : matchBuckdLine (pyStrip (s i)) = none := by
        simpa using hk 0 (Nat.succ_pos n)
      simp only [awaitPortFrom, h0]
      refine ih f (i + 1) p (by omega) (fun k hkk => ?_) ?_
      · have hx := hk (k + 1) (by omega)
        have e : i + (k + 1) = (i + 1) + k := by omega
        rwa [e] at hx
      · have e : i + (n + 1) = (i + 1) + n := by omega
        rwa [e] at hm

/-- When every signal of a schedule delivers, `runAttempts` walks the whole
schedule and the `try` block succeeds. -/
theorem runAttempts_allOk (env : Env) (pid : Nat) :
    ∀ sigs idx,
      (∀ i, i < sigs.length → env.killOutcome pid (sigs.getD i 0) (idx + i) = none) →
      runAttempts env pid sigs idx = (sigs, Except.ok ()) := by
  intro sigs
  induction sigs with
  | nil => intro idx _; rfl
  | cons sig rest ih =>
    intro idx h
    have h0 : env.killOutcome pid sig idx = none := by
      simpa using h 0 (Nat.succ_pos rest.length)
    have hrest := ih (idx + 1) (fun i hi => by
      have hx := h (i + 1) (Nat.succ_lt_succ hi)
      have e : idx + (i + 1) = (idx + 1) + i := by omega
      rw [e] at hx
      simpa using hx)
    simp [runAttempts, h0, hrest]

/-- When the first raising signal of a schedule is attempt `k` with errno
`e`, `runAttempts` stops there, succeeding on ESRCH and failing otherwise. -/
theorem runAttempts_firstErr (env : Env) (pid : Nat) :
    ∀ k sigs idx e, k < sigs.length →
      (∀ i, i < k → env.killOutcome pid (sigs.getD i 0) (idx + i) = none) →
      env.killOutcome pid (sigs.getD k 0) (idx + k) = some e →
      runAttempts env pid sigs idx =
        (sigs.take (k + 1),
         if e = ESRCH then Except.ok () else Except.error (PyError.osError e)) := by
  intro k
  induction k with
  | zero =>
    intro sigs idx e hk _ he
    cases sigs with
    | nil => simp at hk
    | cons sig rest =>
      have h0 : env.killOutcome pid sig idx = some e := by simpa using he
      simp [runAttempts, h0]
  | succ n ih =>
    intro sigs idx e hk hbefore he
    cases sigs with
    | nil => simp at hk
    | cons sig rest =>
      have h0 : env.killOutcome pid sig idx = none := by
        simpa using hbefore 0 (Nat.succ_pos n)
      have hr := ih rest (idx + 1) e (by simpa using Nat.lt_of_succ_lt_succ hk)
        (fun i hi => by
          have hx := hbefore (i + 1) (Nat.succ_lt_succ hi)
          have e1 : idx + (i + 1) = (idx + 1) + i := by omega
          rw [e1] at hx
          simpa using hx)
        (by
          have e1 : idx + (n + 1) = (idx + 1) + n := by omega
          rw [e1] at he
          simpa using he)
      simp [runAttempts, h0, hr, List.take]

/-- The signal schedule of `_kill_buckd_process_and_wait`, indexed. -/
theorem attemptSignals_getD : ∀ i, i < 102 → attemptSignals.getD i 0 = sigAt i := by
  decide

/-- The signal schedule has 102 entries (101 SIGTERMs, one SIGKILL). -/
theorem attemptSignals_length : attemptSignals.length = 102 := by decide

/-- `clean_up_buckd` is idempotent. -/
theorem clean_up_buckd_idem (st : ProjectRuntimeState) :
    clean_up_buckd (clean_up_buckd st) = clean_up_buckd st := rfl

/-- C4: `_is_buckd_running` is true iff the persisted pid is a digit string
naming a process that `os.kill(pid, 0)` can reach AND the persisted port is a
digit string on which a raw socket connection succeeds; in particular it is
false when the port refuses connections even with a live pid, and false
(without raising) when the pid or port is missing or non-numeric. -/
theorem is_buckd_running_spec (env : Env) (st : ProjectRuntimeState) :
    (is_buckd_running env st = true ↔
      ∃ pid port, st.buckd_pid = some pid ∧ st.buckd_port = some port ∧
        pyIsDigit pid = true ∧ pyIsDigit port = true ∧
        env.pidAlive (strToNat pid) = true ∧
        env.portOpen (strToNat port) = true) ∧
    (st.buckd_pid = none → is_buckd_running env st = false) ∧
    (st.buckd_port = none → is_buckd_running env st = false) ∧
    (∀ pid port, st.buckd_pid = some pid → st.buckd_port = some port →
      env.portOpen (strToNat port) = false → is_buckd_running env st = false) := by
  refine ⟨?_, ?_, ?_, ?_⟩
  · unfold is_buckd_running
    cases hp : st.buckd_pid with
    | none => simp
    | some pid =>
      cases hq : st.buckd_port with
      | none => simp
      | some port =>
        by_cases h1 : pyIsDigit pid = true <;>
          by_cases h2 : pyIsDigit port = true <;>
          by_cases h3 : env.pidAlive (strToNat pid) = true <;>
          simp_all
  · intro hp
    unfold is_buckd_running
    rw [hp]
  · intro hq
    unfold is_buckd_running
    rw [hq]
    cases st.buckd_pid <;> rfl
  · intro pid port hp hq hopen
    unfold is_buckd_running
    rw [hp, hq]
    by_cases h1 : pyIsDigit pid && pyIsDigit port <;>
      by_cases h3 : env.pidAlive (strToNat pid) = true <;>
      simp_all

/-- C4 witness: with pid 1 live but port 80 closed, `_is_buckd_running` is
false. -/
theorem is_buckd_running_witness :
    is_buckd_running envDeadPort stWithDaemon = false :=
  (is_buckd_running_spec envDeadPort stWithDaemon).2.2.2 "1" "80" rfl rfl rfl

/-- C6: port discovery examines at most 100 lines of the daemon's stream,
returns the capture of the first line matching the server-started pattern,
and returns `none` (a reported launch failure, not a crash) when no line
within the bound matches — so it never blocks on a silent daemon.  (The
0.1 s sleep between attempts, giving the ~10 s design target, has no effect
on the computed value and is abstracted away.) -/
theorem port_discovery_bounded_spec (s : Nat → String) :
    (∀ t, (∀ j, j < 100 → s j = t j) → awaitPort s = awaitPort t) ∧
    (∀ j p, j < 100 →
      (∀ k, k < j → matchBuckdLine (pyStrip (s k)) = none) →
      matchBuckdLine (pyStrip (s j)) = some p → awaitPort s = some p) ∧
    ((∀ j, j < 100 → matchBuckdLine (pyStrip (s j)) = none) →
      awaitPort s = none) := by
  refine ⟨?_, ?_, ?_⟩
  · intro t h
    exact awaitPortFrom_congr s t 100 0 (fun j hj => by simpa using h j hj)
  · intro j p hj hk hm
    exact awaitPortFrom_first s j 100 0 p hj
      (fun k hkk => by simpa using hk k hkk) (by simpa using hm)
  · intro h
    exact awaitPortFrom_none s 100 0 (fun j hj => by simpa using h j hj)

/-- C6 witness: a fully silent stream exhausts the bound and reports failure;
a stream that announces port 77 on its fourth line yields that port. -/
theorem port_discovery_bounded_witness :
    awaitPort (fun _ => "") = none ∧ awaitPort streamLate = some "77" := by
  constructor
  · exact (port_discovery_bounded_spec (fun _ => "")).2.2 (fun j _ => rfl)
  · exact (port_discovery_bounded_spec streamLate).2.1 3 "77" (by decide)
      (by decide) (by decide)

/-- C10: even with a live, compatible daemon, `launch_buck` talks to it only
when the client executable `build/ng` exists; when that file is absent the
daemon is never contacted and the direct one-shot java invocation runs, its
exit code returned. -/
theorem dispatch_client_gate_spec (env : Env) (st : ProjectRuntimeState) :
    (dispatchTail env false st = RunOutcome.direct env.directExit) ∧
    (∀ b port code, dispatchTail env b st = RunOutcome.client port code →
      b = true) := by
  constructor
  · unfold dispatchTail
    simp
  · intro b port code h
    cases b with
    | true => rfl
    | false =>
      unfold dispatchTail at h
      simp at h


/-- The run count carried by the state `launch_buckd` leaves behind: the
caller's count on discovery failure, 0 on success. -/
theorem launch_buckd_run_count (env : Env) (uid : String)
    (st : ProjectRuntimeState) :
    (launch_buckd env uid st).buckd_run_count = st.buckd_run_count ∨
    (launch_buckd env uid st).buckd_run_count = 0 := by
  unfold launch_buckd
  cases awaitPort env.stream with
  | none => left; rfl
  | some p => right; rfl

/-- A `kill_buckd` call that does not raise always ends in the cleaned-up
state (`clean_up_buckd`). -/
theorem kill_buckd_result_ok (env : Env) (st st' : ProjectRuntimeState)
    (h : (kill_buckd env st).result = Except.ok st') :
    st' = clean_up_buckd st := by
  unfold kill_buckd at h
  split at h
  · exact (Except.ok.inj h).symm
  · split at h
    · exact (Except.ok.inj h).symm
    · split at h
      · exact (Except.ok.inj h).symm
      · split at h
        · exact (Except.ok.inj h).symm
        · exact absurd h (by simp)

/-- Every state the `use_buckd` branch persists keeps the run count at or
below the ceiling: the branch writes either 0 (fresh launch), the caller's
count (failed launch), or `count + 1` guarded by
`count ≠ MAX_BUCKD_RUN_COUNT`.  This is the invariant that justifies reading
"count = ceiling" as "count not strictly below the ceiling" on states the
program itself has persisted. -/
theorem launch_buck_run_count_invariant (ub hw : Bool) (env : Env)
    (st st' : ProjectRuntimeState) (uid : String)
    (h : st.buckd_run_count ≤ MAX_BUCKD_RUN_COUNT)
    (h2 : (launch_buck_daemon_decision ub hw env st uid).2 = Except.ok st') :
    st'.buckd_run_count ≤ MAX_BUCKD_RUN_COUNT := by
  unfold launch_buck_daemon_decision at h2
  by_cases hub : (ub && hw) = true
  · rw [if_pos hub] at h2
    by_cases hrv : st.buckd_run_count = MAX_BUCKD_RUN_COUNT ∨
        st.buckd_version ≠ some uid
    · rw [if_pos hrv] at h2
      cases hres : (kill_buckd env st).result with
      | error e => rw [hres] at h2; simp at h2
      | ok st1 =>
        rw [hres] at h2
        simp only [Except.ok.injEq] at h2
        subst h2
        rcases launch_buckd_run_count env uid st1 with hc | hc <;> rw [hc]
        · rw [kill_buckd_result_ok env st st1 hres]
          exact Nat.zero_le _
        · exact Nat.zero_le _
    · rw [if_neg hrv] at h2
      push_neg at hrv
      obtain ⟨hcnt, _⟩ := hrv
      by_cases hal : is_buckd_running env st = false
      · rw [if_pos hal] at h2
        simp only [Except.ok.injEq] at h2
        subst h2
        rcases launch_buckd_run_count env uid st with hc | hc <;> rw [hc]
        · exact h
        · exact Nat.zero_le _
      · rw [if_neg hal] at h2
        simp only [Except.ok.injEq] at h2
        subst h2
        exact Nat.lt_of_le_of_ne h hcnt
  · rw [if_neg hub] at h2
    simp only [Except.ok.injEq] at h2
    subst h2
    exact h

/-- C2: with daemon use enabled and watchman present, the `use_buckd` branch
decides REUSE exactly when the daemon is alive, the persisted version uid
equals the freshly computed one, and the persisted run counter is strictly
below `MAX_BUCKD_RUN_COUNT` (states the program persists never exceed the
ceiling, see `launch_buck_run_count_invariant`); a REUSE persists the
incremented counter; and once the counter reaches the ceiling the decision is
RESTART_FRESH even with a live, version-matching daemon — so after
ceiling-many consecutive reuses the daemon is recycled. -/
theorem reuse_decision_spec (ub hw : Bool) (env : Env)
    (st : ProjectRuntimeState) (uid : String)
    (hcount : st.buckd_run_count ≤ MAX_BUCKD_RUN_COUNT) :
    ((launch_buck_daemon_decision ub hw env st uid).1 = Decision.REUSE ↔
      (ub = true ∧ hw = true ∧ is_buckd_running env st = true ∧
       st.buckd_version = some uid ∧
       st.buckd_run_count < MAX_BUCKD_RUN_COUNT)) ∧
    ((launch_buck_daemon_decision ub hw env st uid).1 = Decision.REUSE →
      (launch_buck_daemon_decision ub hw env st uid).2 =
        Except.ok { st with buckd_run_count := st.buckd_run_count + 1 }) ∧
    (ub = true → hw = true → st.buckd_run_count = MAX_BUCKD_RUN_COUNT →
      (launch_buck_daemon_decision ub hw env st uid).1 =
        Decision.RESTART_FRESH) := by
  unfold launch_buck_daemon_decision
  by_cases hub : (ub && hw) = true
  · rw [if_pos hub]
    rw [Bool.and_eq_true] at hub
    obtain ⟨hu, hv⟩ := hub
    by_cases hrv : st.buckd_run_count = MAX_BUCKD_RUN_COUNT ∨
        st.buckd_version ≠ some uid
    · rw [if_pos hrv]
      refine ⟨?_, ?_, ?_⟩
      · constructor
        · intro hcon
          split at hcon <;> simp at hcon
        · rintro ⟨_, _, _, hver, hlt⟩
          exfalso
          rcases hrv with hc | hc
          · rw [hc] at hlt
            exact lt_irrefl _ hlt
          · exact hc hver
      · intro hcon
        split at hcon <;> simp at hcon
      · intro _ _ _
        split <;> rfl
    · rw [if_neg hrv]
      push_neg at hrv
      obtain ⟨hcnt, hver⟩ := hrv
      by_cases hal : is_buckd_running env st = false
      · rw [if_pos hal]
        refine ⟨?_, ?_, ?_⟩
        · simp [hal]
        · intro hcon
          simp at hcon
        · intro _ _ hmax
          exact absurd hmax hcnt
      · rw [if_neg hal]
        rw [Bool.not_eq_false] at hal
        refine ⟨?_, ?_, ?_⟩
        · constructor
          · intro _
            exact ⟨hu, hv, hal, hver, Nat.lt_of_le_of_ne hcount hcnt⟩
          · intro _
            rfl
        · intro _
          rfl
        · intro _ _ hmax
          exact absurd hmax hcnt
  · rw [if_neg hub]
    rw [Bool.and_eq_true] at hub
    push_neg at hub
    refine ⟨?_, ?_, ?_⟩
    · constructor
      · intro hcon
        simp at hcon
      · rintro ⟨hu, hv2, _⟩
        exact absurd hv2 (hub hu)
    · intro hcon
      simp at hcon
    · intro hu hv2 _
      exact absurd hv2 (hub hu)

/-- C2 witness: a live daemon at matching version `"v1"` with persisted count
3 is reused, and the persisted count becomes 4. -/
theorem reuse_decision_witness :
    (launch_buck_daemon_decision true true envAllUp stWithDaemon "v1").1 =
      Decision.REUSE ∧
    (launch_buck_daemon_decision true true envAllUp stWithDaemon "v1").2 =
      Except.ok { stWithDaemon with buckd_run_count := 4 } := by
  have h := reuse_decision_spec true true envAllUp stWithDaemon "v1" (by decide)
  have hd := h.1.mpr ⟨rfl, rfl, by decide, rfl, by decide⟩
  exact ⟨hd, h.2.1 hd⟩

/-- Reduction of `kill_buckd` on a recorded digit-string pid: it runs the
kill-and-wait sequence on `int(pid)`. -/
theorem kill_buckd_eq_digit (env : Env) (st : ProjectRuntimeState)
    (pid : String) (hp : st.buckd_pid = some pid) (hne : pid ≠ "")
    (hd : pyIsDigit pid = true) :
    kill_buckd env st =
      (match kill_buckd_process_and_wait env (strToNat pid) with
       | (tr, Except.ok _) => ⟨tr, false, Except.ok (clean_up_buckd st)⟩
       | (tr, Except.error e) => ⟨tr, false, Except.error e⟩) := by
  unfold kill_buckd
  split
  · rename_i heq
    rw [hp] at heq
    simp at heq
  · rename_i pid2 heq
    rw [hp] at heq
    obtain rfl := Option.some.inj heq
    rw [if_neg hne, if_neg (by simp [hd])]

/-- C5: `kill_buckd` is idempotent.  With no recorded pid it sends no signal
and still clears persisted daemon state, so two consecutive calls with no
daemon both succeed and leave the state empty.  With a recorded digit pid it
sends SIGTERM in a bounded retry loop (101 attempts) and escalates to SIGKILL
when the process survives the whole bound; the first `OSError(ESRCH)` at any
attempt is success (already gone) while any other errno is fatal; every
non-raising path ends with the persisted daemon state cleared. -/
theorem kill_buckd_lifecycle_spec (env : Env) (st : ProjectRuntimeState) :
    (st.buckd_pid = none →
      (kill_buckd env st = ⟨[], false, Except.ok (clean_up_buckd st)⟩ ∧
       kill_buckd env (clean_up_buckd st) =
         ⟨[], false, Except.ok (clean_up_buckd st)⟩ ∧
       (clean_up_buckd st).buckd_pid = none ∧
       (clean_up_buckd st).buckd_port = none ∧
       (clean_up_buckd st).buckd_version = none)) ∧
    (∀ pid, st.buckd_pid = some pid → pyIsDigit pid = true →
      (((∀ i, i < 102 → env.killOutcome (strToNat pid) (sigAt i) i = none) →
        kill_buckd env st =
          ⟨List.replicate 101 SIGTERM ++ [SIGKILL], false,
           Except.ok (clean_up_buckd st)⟩) ∧
       (∀ k e, k < 102 →
         (∀ i, i < k → env.killOutcome (strToNat pid) (sigAt i) i = none) →
         env.killOutcome (strToNat pid) (sigAt k) k = some e →
         (kill_buckd env st).result =
           (if e = ESRCH then Except.ok (clean_up_buckd st)
            else Except.error (PyError.osError e))))) := by
  constructor
  · intro hp
    refine ⟨?_, ?_, rfl, rfl, rfl⟩
    · unfold kill_buckd
      split
      · rfl
      · rename_i pid2 heq
        rw [hp] at heq
        simp at heq
    · rfl
  · intro pid hp hd
    have hne : pid ≠ "" := by
      intro he
      rw [he] at hd
      simp [pyIsDigit] at hd
    constructor
    · intro hall
      have hrun : kill_buckd_process_and_wait env (strToNat pid) =
          (attemptSignals, Except.ok ()) := by
        unfold kill_buckd_process_and_wait
        apply runAttempts_allOk
        intro i hi
        have h1 : i < 102 := by
          rw [attemptSignals_length] at hi
          exact hi
        rw [attemptSignals_getD i h1, Nat.zero_add]
        exact hall i h1
      rw [kill_buckd_eq_digit env st pid hp hne hd, hrun]
      rfl
    · intro k e hk hbefore hfail
      have hrun : kill_buckd_process_and_wait env (strToNat pid) =
          (attemptSignals.take (k + 1),
           if e = ESRCH then Except.ok ()
           else Except.error (PyError.osError e)) := by
        unfold kill_buckd_process_and_wait
        apply runAttempts_firstErr
        · rw [attemptSignals_length]
          exact hk
        · intro i hi
          have h1 : i < 102 := by omega
          rw [attemptSignals_getD i h1, Nat.zero_add]
          exact hbefore i hi
        · rw [attemptSignals_getD k hk, Nat.zero_add]
          exact hfail
      rw [kill_buckd_eq_digit env st pid hp hne hd, hrun]
      by_cases he : e = ESRCH
      · rw [if_pos he, if_pos he]
      · rw [if_neg he, if_neg he]

/-- C5 witness: with every signal delivered, killing the pid-1 daemon sends
101 SIGTERMs then SIGKILL and clears the state; on an empty state the call is
a signal-free no-op that leaves the state empty. -/
theorem kill_buckd_lifecycle_witness :
    kill_buckd envAllUp stWithDaemon =
      ⟨List.replicate 101 SIGTERM ++ [SIGKILL], false,
       Except.ok (clean_up_buckd stWithDaemon)⟩ ∧
    kill_buckd envAllUp emptyState =
      ⟨[], false, Except.ok (clean_up_buckd emptyState)⟩ := by
  constructor
  · exact (((kill_buckd_lifecycle_spec envAllUp stWithDaemon).2 "1" rfl
      (by decide)).1) (fun i _ => rfl)
  · exact ((kill_buckd_lifecycle_spec envAllUp emptyState).1 rfl).1

/-- C9: with a recorded pid that is truthy but not a decimal numeral,
`kill_buckd` prints only the corrupt-pid warning, sends no signal, raises no
error, and still clears all persisted daemon state. -/
theorem kill_buckd_corrupt_pid_spec (env : Env) (st : ProjectRuntimeState)
    (pid : String) (hp : st.buckd_pid = some pid) (hne : pid ≠ "")
    (hd : pyIsDigit pid = false) :
    kill_buckd env st = ⟨[], true, Except.ok (clean_up_buckd st)⟩ ∧
    (clean_up_buckd st).buckd_pid = none ∧
    (clean_up_buckd st).buckd_port = none ∧
    (clean_up_buckd st).buckd_version = none ∧
    (clean_up_buckd st).buckd_run_count = 0 := by
  refine ⟨?_, rfl, rfl, rfl, rfl⟩
  unfold kill_buckd
  split
  · rename_i heq
    rw [hp] at heq
    simp at heq
  · rename_i pid2 heq
    rw [hp] at heq
    obtain rfl := Option.some.inj heq
    rw [if_neg hne, if_pos hd]

/-- C9 witness: pid file content `"abc"` is warned about, unsignalled, and
cleaned up. -/
theorem kill_buckd_corrupt_pid_witness :
    kill_buckd envAllUp stCorruptPid =
      ⟨[], true, Except.ok (clean_up_buckd stCorruptPid)⟩ :=
  (kill_buckd_corrupt_pid_spec envAllUp stCorruptPid "abc" rfl (by decide)
    (by decide)).1

/-- C8 (code bug): with any recorded numeric autobuild pid, `kill_autobuild`
raises `TypeError` — `os.kill` receives the pid *string* (the source omits
`int()`), and the surrounding handler only catches `OSError` — so the
claimed best-effort signal-and-continue behaviour does not happen. -/
theorem kill_autobuild_type_error_spec (env : Env) (st : ProjectRuntimeState)
    (pid : String) (hp : st.autobuild_pid = some pid)
    (hd : pyIsDigit pid = true) :
    kill_autobuild env st = Except.error PyError.typeError := by
  have hne : pid ≠ "" := by
    intro he
    rw [he] at hd
    simp [pyIsDigit] at hd
  unfold kill_autobuild
  split
  · rename_i heq
    rw [hp] at heq
    simp at heq
  · rename_i pid2 heq
    rw [hp] at heq
    obtain rfl := Option.some.inj heq
    rw [if_neg hne, if_pos hd]
    rfl

/-- C8 witness: recorded autobuild pid `"123"` aborts the invocation with a
`TypeError` instead of being signalled best-effort. -/
theorem kill_autobuild_type_error_witness :
    kill_autobuild envAllUp stAutobuild = Except.error PyError.typeError :=
  kill_autobuild_type_error_spec envAllUp stAutobuild "123" rfl (by decide)

/-- A persisted state with no port is never a running daemon. -/
theorem is_buckd_running_no_port (env : Env) (st : ProjectRuntimeState)
    (h : st.buckd_port = none) : is_buckd_running env st = false := by
  unfold is_buckd_running
  rw [h]
  cases st.buckd_pid <;> rfl

/-- C1 counterexample: with a daemon that emits no output, port discovery
fails, yet `launch_buckd` does NOT leave the persisted state unchanged — the
spawned child's pid was already persisted before port discovery
(`save_buckd_pid`, `buck_repo.py` line 231). -/
theorem launch_buckd_port_failure_counterexample :
    awaitPort envNoOutput.stream = none ∧
    launch_buckd envNoOutput "v1" emptyState ≠ emptyState := by
  decide

/-- C1 (amended): when port discovery exhausts its bound without a match,
`launch_buckd` persists no port, version uid, or run count — those fields are
unchanged — but the pid of the spawned daemon process IS persisted (recorded
before port discovery); with no previously persisted port, the subsequent
dispatch then falls back to the direct one-shot invocation. -/
theorem launch_buckd_port_failure_spec (env : Env) (uid : String)
    (st : ProjectRuntimeState)
    (h : ∀ j, j < 100 → matchBuckdLine (pyStrip (env.stream j)) = none) :
    launch_buckd env uid st =
      { st with buckd_pid := some (toString env.newPid) } ∧
    (launch_buckd env uid st).buckd_port = st.buckd_port ∧
    (launch_buckd env uid st).buckd_version = st.buckd_version ∧
    (launch_buckd env uid st).buckd_run_count = st.buckd_run_count ∧
    (∀ b, st.buckd_port = none →
      dispatchTail env b (launch_buckd env uid st) =
        RunOutcome.direct env.directExit) := by
  have hnone : awaitPort env.stream = none :=
    awaitPortFrom_none env.stream 100 0 (fun j hj => by simpa using h j hj)
  have hmain : launch_buckd env uid st =
      { st with buckd_pid := some (toString env.newPid) } := by
    unfold launch_buckd
    rw [hnone]
  refine ⟨hmain, by rw [hmain], by rw [hmain], by rw [hmain], ?_⟩
  intro b hport
  rw [hmain]
  have hrun : is_buckd_running env
      { st with buckd_pid := some (toString env.newPid) } = false :=
    is_buckd_running_no_port env _ hport
  simp [dispatchTail, hrun]

/-- C1 witness: a silent daemon leaves only the new pid behind, and the run
then goes through the direct invocation. -/
theorem launch_buckd_port_failure_witness :
    launch_buckd envNoOutput "v1" emptyState =
      { emptyState with buckd_pid := some (toString (42 : Nat)) } ∧
    dispatchTail envNoOutput true (launch_buckd envNoOutput "v1" emptyState) =
      RunOutcome.direct 7 := by
  have h := launch_buckd_port_failure_spec envNoOutput "v1" emptyState
    (fun j _ => rfl)
  exact ⟨h.1, h.2.2.2.2 true rfl⟩

/-- `_restart_buck` never returns control: its outcome is always a process
exit or a re-raised signal. -/
theorem restart_buck_ne_normalReturn (c : Int) :
    restart_buck c ≠ GateOutcome.normalReturn := by
  unfold restart_buck
  split <;> simp

/-- C3 counterexample: on a successful pinned update (revision `"r1"` ≠ pin
`"r2"`, checkout and `ant clean` succeed), `_checkout_and_clean` re-executes
the program WITHOUT running the full build first: no full-build step occurs
in its trace (the full build happens only inside the re-executed child,
triggered by the removed success marker). -/
theorem checkout_full_build_counterexample :
    gateEnvHappy.currentRevision ≠ "r2" ∧
    GateAction.antFull ∉ (checkout_and_clean gateEnvHappy "r2" none).1 ∧
    (checkout_and_clean gateEnvHappy "r2" none).2 = GateOutcome.exited 0 := by
  decide

/-- C3 (amended): when a pin is configured and the current revision differs
from it, `_checkout_and_clean` announces the update, checks out the pin,
removes the success marker when present, runs the clean build (fatal on
nonzero exit, as is a missing build tool), and then re-executes the whole
program with the original arguments, forwarding the child's exit code
(re-raising the termination signal on itself for a negative code) and
terminating — it never returns normally, so no further logic runs in the old
checkout.  The full build is not run before the re-execution; it happens in
the re-executed child via the removed success marker. -/
theorem checkout_and_clean_spec (env : GateEnv) (rev : String)
    (branch : Option String) (hdiff : env.currentRevision ≠ rev) :
    (env.revisionExists rev = true → env.checkoutOk = true →
      env.antOnPath = true → env.antCleanExit = 0 →
      checkout_and_clean env rev branch =
        ([GateAction.announce, GateAction.checkout rev] ++
          (if env.markerExists then [GateAction.removeMarker] else []) ++
          [GateAction.antClean, GateAction.restart],
         restart_buck env.childExit)) ∧
    (0 ≤ env.childExit →
      restart_buck env.childExit = GateOutcome.exited env.childExit) ∧
    (env.childExit < 0 →
      restart_buck env.childExit = GateOutcome.signalled (-env.childExit)) ∧
    (env.revisionExists rev = true → env.checkoutOk = true →
      env.antOnPath = true → env.antCleanExit ≠ 0 →
      (checkout_and_clean env rev branch).2 = GateOutcome.cleanBuildFailed) ∧
    (env.revisionExists rev = true → env.checkoutOk = true →
      env.antOnPath = false →
      (checkout_and_clean env rev branch).2 = GateOutcome.antMissing) ∧
    (checkout_and_clean env rev branch).2 ≠ GateOutcome.normalReturn := by
  refine ⟨?_, ?_, ?_, ?_, ?_, ?_⟩
  · intro h1 h2 h3 h4
    unfold checkout_and_clean
    simp [h1, h2, h3, h4, hdiff]
  · intro h
    unfold restart_buck
    rw [if_neg (by omega)]
  · intro h
    unfold restart_buck
    rw [if_pos h]
  · intro h1 h2 h3 h4
    unfold checkout_and_clean
    simp [h1, h2, h3, h4, hdiff]
  · intro h1 h2 h3
    unfold checkout_and_clean
    simp [h1, h2, h3, hdiff]
  · have hrb := restart_buck_ne_normalReturn env.childExit
    unfold checkout_and_clean
    split_ifs <;> simp_all

/-- C3 witness: the happy-path update produces exactly announce, checkout,
marker removal, clean build, restart, and forwards the child's exit code 0. -/
theorem checkout_and_clean_witness :
    checkout_and_clean gateEnvHappy "r2" none =
      ([GateAction.announce, GateAction.checkout "r2", GateAction.removeMarker,
        GateAction.antClean, GateAction.restart], GateOutcome.exited 0) :=
  (checkout_and_clean_spec gateEnvHappy "r2" none (by decide)).1 rfl rfl rfl rfl

/-- C7 counterexample: a clean version-controlled tree with
`BUCK_REPOSITORY_DIRTY=1` exported does NOT get the current revision id back
— the override forces the dirty path, which returns the local content hash. -/
theorem clean_tree_uid_counterexample :
    repoEnvOverride.isGit = true ∧
    pyStrip repoEnvOverride.gitStatusOutput = "" ∧
    get_buck_version_uid repoEnvOverride 0 ≠
      UidOutcome.value (get_git_revision repoEnvOverride) := by
  decide

/-- C7 (amended): for every clean (empty `git status --porcelain`)
version-controlled state, `_get_buck_version_uid` returns exactly the current
revision id for every setting of its environment inputs EXCEPT
`BUCK_REPOSITORY_DIRTY` set to exactly `"1"`, which forces the dirty-tree
hash path despite the clean tree. -/
theorem clean_tree_uid_spec (e : RepoEnv) (c : Int) (hg : e.isGit = true)
    (hclean : pyStrip e.gitStatusOutput = "")
    (hov : e.dirtyOverride ≠ some "1") :
    get_buck_version_uid e c = UidOutcome.value e.gitRevision := by
  have hdirty : is_dirty e = false := by
    unfold is_dirty
    cases ho : e.dirtyOverride with
    | none => simp [pyTruthy, hg, hclean]
    | some s =>
      by_cases hs : s = ""
      · subst hs
        simp [pyTruthy, hg, hclean]
      · rw [ho] at hov
        have hs1 : s ≠ "1" := by
          intro hx
          exact hov (by rw [hx])
        simp [pyTruthy, hs, hs1]
  simp [get_buck_version_uid, hg, hdirty, get_git_revision]

/-- C7 witness: the clean checkout at `"abc123"` with the override unset
yields exactly `"abc123"`. -/
theorem clean_tree_uid_witness :
    get_buck_version_uid repoEnvClean 0 = UidOutcome.value "abc123" :=
  clean_tree_uid_spec repoEnvClean 0 rfl rfl (by decide)

/-- C10 witness: with the client file present the live daemon is used through
port 80; with it absent the same state runs directly with exit code 7. -/
theorem dispatch_client_gate_witness :
    true = true ∧
    dispatchTail envAllUp false stWithDaemon = RunOutcome.direct 7 :=
  ⟨(dispatch_client_gate_spec envAllUp stWithDaemon).2 true "80" 0 rfl,
   (dispatch_client_gate_spec envAllUp stWithDaemon).1⟩
